import Mathlib

/-
Verification of the joi-assistant client core (src/joi-frontend/src/Pages/Home.jsx).

The JavaScript source is shallowly embedded below: every pure helper of the
component (cleanResponse, formatResponse, the regex patterns they apply) is
translated to an executable Lean function over lists of characters, and the
stateful handlers (the stream accumulator inside ws.onmessage, displayResponse,
ws.onclose reconnection, handleSend, handleLoadConversation) become explicit
state-passing functions.  JavaScript regular-expression replaces are modelled
by specialised scanners, one per pattern, applied in the source's order.
Math.random-based code-block ids are modelled by an explicit id source
(supply : Nat -> String, consumed per block in match order), and the
JavaScript Date behaviour relevant here (ISO yyyy-mm-dd strings parse as UTC
midnight while getDate/getMonth/getFullYear read local time) is modelled with
an explicit timezone offset in minutes (tz, local = UTC + tz, |tz| < 1440).
-/

namespace Joi

/-! ### Character and list-of-char helpers -/

/-- ASCII lower-casing, the fragment of String.prototype.toLowerCase the
client exercises. -/
def asciiLower (c : Char) : Char :=
  if 'A' ≤ c && c ≤ 'Z' then Char.ofNat (c.toNat + 32) else c

/-- JavaScript regex \w : [A-Za-z0-9_]. -/
def isWordChar (c : Char) : Bool :=
  c.isAlpha || c.isDigit || c == '_'

/-- JavaScript regex \s (the ASCII part, which is all the client's data uses). -/
def isWsChar (c : Char) : Bool :=
  c == ' ' || c == '\t' || c == '\n' || c == '\r' || c == '\x0b' || c == '\x0c'

/-- The backtick character (code point 96). -/
def backtickChar : Char := Char.ofNat 96

def startsWithL : List Char → List Char → Bool
  | [], _ => true
  | _ :: _, [] => false
  | p :: ps, c :: cs => p == c && startsWithL ps cs

/-- Case-insensitive (ASCII) prefix test, for the /i regex flags. -/
def startsWithCI : List Char → List Char → Bool
  | [], _ => true
  | _ :: _, [] => false
  | p :: ps, c :: cs => asciiLower p == asciiLower c && startsWithCI ps cs

/-- Index of the first occurrence of `needle` in the list, if any. -/
def indexOfSub (needle : List Char) : List Char → Option Nat
  | [] => if needle.isEmpty then some 0 else none
  | c :: cs =>
      if startsWithL needle (c :: cs) then some 0
      else (indexOfSub needle cs).map (· + 1)

/-- Model of String.prototype.indexOf(needle, fromIdx). -/
def indexOfFrom (hay needle : List Char) (fromIdx : Nat) : Option Nat :=
  (indexOfSub needle (hay.drop fromIdx)).map (· + fromIdx)

def countLeading (p : Char → Bool) : List Char → Nat
  | [] => 0
  | c :: cs => if p c then countLeading p cs + 1 else 0

/-- First index of `target`, giving up at a newline: the semantics of a lazy
`.*?x` step, since `.` does not match a line break. -/
def findCharBeforeNewline (target : Char) : List Char → Option Nat
  | [] => none
  | c :: cs =>
      if c == target then some 0
      else if c == '\n' then none
      else (findCharBeforeNewline target cs).map (· + 1)

/-- Whitespace trim at both ends, the model of String.prototype.trim(). -/
def trimList (l : List Char) : List Char :=
  ((l.dropWhile isWsChar).reverse.dropWhile isWsChar).reverse

/-- String-level trim via `trimList`. -/
def jsTrim (s : String) : String := String.mk (trimList s.toList)

/-! ### The global-replace engine

Each JavaScript `text.replace(/pat/g, '')` is modelled by `deleteAll m`
where `m` reports, for a given suffix, the length of the (unique) match the
JS engine would take starting there.  Scanning is leftmost, matches are
non-overlapping, and the scanner resumes after each match, exactly like a
global replace with an empty replacement.  All the component's patterns
match at least one character, so `some 0` never occurs. -/

def deleteAllGo (m : List Char → Option Nat) : Nat → List Char → List Char
  | 0, l => l
  | _ + 1, [] => []
  | fuel + 1, c :: cs =>
      match m (c :: cs) with
      | some (n + 1) => deleteAllGo m fuel (List.drop n cs)
      | _ => c :: deleteAllGo m fuel cs

def deleteAll (m : List Char → Option Nat) (l : List Char) : List Char :=
  deleteAllGo m l.length l

/-! ### The eight cleanResponse patterns (Home.jsx lines 49-60) -/

/-- /TOOL_CALL::.*?\x7d/g : "TOOL_CALL::" up to the first closing brace on the
same line. -/
def mToolCallArgs (l : List Char) : Option Nat :=
  if startsWithL "TOOL_CALL::".toList l then
    match findCharBeforeNewline '\x7d' (l.drop 11) with
    | some k => some (11 + k + 1)
    | none => none
  else none

/-- /TOOL_CALL/g. -/
def mToolCallBare (l : List Char) : Option Nat :=
  if startsWithL "TOOL_CALL".toList l then some 9 else none

/-- /(\*\*|`{1,3}|\n{2,})/g : double asterisks, one to three backticks
(greedy), or a run of two or more newlines (greedy). -/
def mEmphasis (l : List Char) : Option Nat :=
  match l with
  | '*' :: '*' :: _ => some 2
  | c :: _ =>
      if c == backtickChar then
        some (min (countLeading (fun d => d == backtickChar) l) 3)
      else if c == '\n' then
        let r := countLeading (fun d => d == '\n') l
        if 2 ≤ r then some r else none
      else none
  | [] => none

/-- /Let me (fetch|check|help|explain).*?\./gi : through the first period on
the same line. -/
def mLetMeVerb (l : List Char) : Option Nat :=
  if startsWithCI "let me ".toList l then
    let rest := l.drop 7
    let verb : Option Nat :=
      if startsWithCI "fetch".toList rest then some 5
      else if startsWithCI "check".toList rest then some 5
      else if startsWithCI "help".toList rest then some 4
      else if startsWithCI "explain".toList rest then some 7
      else none
    match verb with
    | some v =>
        match findCharBeforeNewline '.' (rest.drop v) with
        | some k => some (7 + v + k + 1)
        | none => none
    | none => none
  else none

/-- /Let me know if.*$/gi : without the m flag, $ is end of input only, so the
phrase is removed only when no newline follows it. -/
def mLetMeKnowIf (l : List Char) : Option Nat :=
  if startsWithCI "let me know if".toList l then
    if (l.drop 14).contains '\n' then none else some l.length
  else none

/-- /Here\x27s a simple.*?:/gi : through the first colon on the same line. -/
def mHeresASimple (l : List Char) : Option Nat :=
  if startsWithCI "here\x27s a simple".toList l then
    match findCharBeforeNewline ':' (l.drop 15) with
    | some k => some (15 + k + 1)
    | none => none
  else none

/-- /###\s*How to run.*?(?=\n|$)/gis : the lazy tail stops just before the
first newline or the end of input. -/
def mHowToRun (l : List Char) : Option Nat :=
  if startsWithL "###".toList l then
    let rest := l.drop 3
    let w := countLeading isWsChar rest
    let rest2 := rest.drop w
    if startsWithCI "how to run".toList rest2 then
      let j := countLeading (fun c => !(c == '\n')) (rest2.drop 10)
      some (3 + w + 10 + j)
    else none
  else none

/-- /(\d+\.\s*.*?)(?=\n|$)/g : digits, a period, greedy whitespace (which may
cross newlines), then up to the next newline or the end of input. -/
def mNumberedItem (l : List Char) : Option Nat :=
  let d := countLeading Char.isDigit l
  if d == 0 then none
  else
    match l.drop d with
    | '.' :: rest =>
        let w := countLeading isWsChar rest
        let j := countLeading (fun c => !(c == '\n')) (rest.drop w)
        some (d + 1 + w + j)
    | _ => none

/-- cleanResponse (Home.jsx lines 49-60): the eight global replaces in source
order, then trim. -/
def cleanResponse (text : String) : String :=
  let l1 := deleteAll mToolCallArgs text.toList
  let l2 := deleteAll mToolCallBare l1
  let l3 := deleteAll mEmphasis l2
  let l4 := deleteAll mLetMeVerb l3
  let l5 := deleteAll mLetMeKnowIf l4
  let l6 := deleteAll mHeresASimple l5
  let l7 := deleteAll mHowToRun l6
  let l8 := deleteAll mNumberedItem l7
  String.mk (trimList l8)

/-! ### The date regex /(\w+ \d\x7b1,2\x7d, \d\x7b4\x7d)|(\d\x7b4\x7d-\d\x7b2\x7d-\d\x7b2\x7d)/
and the slice of JavaScript Date the component relies on -/

/-- The \d\x7b1,2\x7d, step of the long-form date alternative: one or two
digits directly followed by a comma (greedy with backtracking). -/
def digitsThenComma (rest : List Char) : Option Nat :=
  match rest with
  | a :: b :: c :: _ =>
      if a.isDigit then
        if b.isDigit then (if c == ',' then some 2 else none)
        else if b == ',' then some 1 else none
      else none
  | a :: b :: [] => if a.isDigit && b == ',' then some 1 else none
  | _ => none

/-- Match of the long-form alternative \w+ \d\x7b1,2\x7d, \d\x7b4\x7d at the
head of the list, returning the match length. -/
def mLongDate (l : List Char) : Option Nat :=
  let w := countLeading isWordChar l
  if w == 0 then none
  else
    match l.drop w with
    | ' ' :: rest =>
        match digitsThenComma rest with
        | some dn =>
            match rest.drop (dn + 1) with
            | ' ' :: r2 =>
                if (r2.take 4).length == 4 && (r2.take 4).all Char.isDigit
                then some (w + 1 + dn + 2 + 4)
                else none
            | _ => none
        | none => none
    | _ => none

/-- Match of the ISO alternative \d\x7b4\x7d-\d\x7b2\x7d-\d\x7b2\x7d at the
head of the list. -/
def mIsoDate (l : List Char) : Option Nat :=
  match l with
  | y1 :: y2 :: y3 :: y4 :: '-' :: m1 :: m2 :: '-' :: d1 :: d2 :: _ =>
      if [y1, y2, y3, y4, m1, m2, d1, d2].all Char.isDigit then some 10 else none
  | _ => none

def findFirstDateGo : Nat → List Char → Option (List Char)
  | 0, _ => none
  | _ + 1, [] => none
  | fuel + 1, c :: cs =>
      match mLongDate (c :: cs) with
      | some n => some ((c :: cs).take n)
      | none =>
          match mIsoDate (c :: cs) with
          | some n => some ((c :: cs).take n)
          | none => findFirstDateGo fuel cs

/-- text.match(dateRegex): the leftmost match, trying the long-form
alternative before the ISO one at each position. -/
def findFirstDate (l : List Char) : Option (List Char) :=
  findFirstDateGo l.length l

/-- The result of a successful `new Date(string)`: a calendar date plus
whether the string was parsed as UTC (ISO date-only strings are; long-form
strings are parsed as local time). -/
structure JsDate where
  year : Nat
  month : Nat
  day : Nat
  parsedAsUtc : Bool
deriving DecidableEq

def isLeapYear (y : Nat) : Bool :=
  (y % 4 == 0 && y % 100 != 0) || y % 400 == 0

def daysInMonth (y m : Nat) : Nat :=
  if m == 2 then (if isLeapYear y then 29 else 28)
  else if m == 4 || m == 6 || m == 9 || m == 11 then 30
  else 31

def digitsToNat (l : List Char) : Nat :=
  l.foldl (fun a c => a * 10 + (c.toNat - 48)) 0

/-- English month names and their three-letter abbreviations,
case-insensitively, the forms the date strings at hand can contain. -/
def monthFromName (w : List Char) : Option Nat :=
  let s := String.mk (w.map asciiLower)
  if s == "january" || s == "jan" then some 1
  else if s == "february" || s == "feb" then some 2
  else if s == "march" || s == "mar" then some 3
  else if s == "april" || s == "apr" then some 4
  else if s == "may" then some 5
  else if s == "june" || s == "jun" then some 6
  else if s == "july" || s == "jul" then some 7
  else if s == "august" || s == "aug" then some 8
  else if s == "september" || s == "sep" then some 9
  else if s == "october" || s == "oct" then some 10
  else if s == "november" || s == "nov" then some 11
  else if s == "december" || s == "dec" then some 12
  else none

/-- new Date("Month D, YYYY"): parsed as a local date; invalid month names or
out-of-range days give an invalid date (none). -/
def parseLongDate (l : List Char) : Option JsDate :=
  let w := l.takeWhile isWordChar
  match monthFromName w with
  | none => none
  | some m =>
      match l.drop w.length with
      | ' ' :: rest =>
          let ds := rest.takeWhile Char.isDigit
          let d := digitsToNat ds
          match rest.drop ds.length with
          | ',' :: ' ' :: rest2 =>
              let ys := rest2.takeWhile Char.isDigit
              let y := digitsToNat ys
              if ys.length == 4 && 1 ≤ d && d ≤ daysInMonth y m
              then some ⟨y, m, d, false⟩ else none
          | _ => none
      | _ => none

/-- new Date("YYYY-MM-DD"): parsed as UTC midnight; out-of-range components
give an invalid date (none). -/
def parseIsoDate (l : List Char) : Option JsDate :=
  match l with
  | [y1, y2, y3, y4, '-', m1, m2, '-', d1, d2] =>
      if [y1, y2, y3, y4, m1, m2, d1, d2].all Char.isDigit then
        let y := digitsToNat [y1, y2, y3, y4]
        let m := digitsToNat [m1, m2]
        let d := digitsToNat [d1, d2]
        if 1 ≤ m && m ≤ 12 && 1 ≤ d && d ≤ daysInMonth y m
        then some ⟨y, m, d, true⟩ else none
      else none
  | _ => none

/-- new Date on the two shapes the date regex can produce. -/
def jsDateParse (l : List Char) : Option JsDate :=
  if l.contains '-' then parseIsoDate l else parseLongDate l

def prevCalendarDay (y m d : Nat) : Nat × Nat × Nat :=
  if 1 < d then (y, m, d - 1)
  else if 1 < m then (y, m - 1, daysInMonth y (m - 1))
  else (y - 1, 12, 31)

/-- getFullYear/getMonth/getDate read local time: a UTC-midnight date shifts
to the previous calendar day exactly when the local timezone is behind UTC
(model restricted to offsets with |tz| < 1440 minutes). -/
def localYMD (tz : Int) (dv : JsDate) : Nat × Nat × Nat :=
  if dv.parsedAsUtc = true ∧ tz < 0 then prevCalendarDay dv.year dv.month dv.day
  else (dv.year, dv.month, dv.day)

/-- toString().padStart(2, "0") on the day and month numbers. -/
def pad2 (n : Nat) : String :=
  if n < 10 then "0" ++ toString n else toString n

/-- The date branch's output string (Home.jsx line 69). -/
def jsFormatDMY (tz : Int) (dv : JsDate) : String :=
  let t := localYMD tz dv
  "Today\x27s date is " ++ pad2 t.2.2 ++ "/" ++ pad2 t.2.1 ++ "/" ++ toString t.1

/-! ### Fenced code-block extraction (Home.jsx lines 74-113) -/

/-- One raw match of /```(\w*)\n([\s\S]*?)```/g : the whole matched text, the
language label (group 1) and the body (group 2). -/
structure RawBlock where
  original : List Char
  label : String
  body : List Char
deriving DecidableEq

def backtick3 : List Char := [backtickChar, backtickChar, backtickChar]

def extractBlocksGo : Nat → List Char → List RawBlock
  | 0, _ => []
  | _ + 1, [] => []
  | fuel + 1, c :: cs =>
      if startsWithL backtick3 (c :: cs) then
        let rest := (c :: cs).drop 3
        let lab := rest.takeWhile isWordChar
        match rest.drop lab.length with
        | '\n' :: rest2 =>
            match indexOfSub backtick3 rest2 with
            | some k =>
                let body := rest2.take k
                let original := backtick3 ++ lab ++ '\n' :: (body ++ backtick3)
                ⟨original, String.mk lab, body⟩ :: extractBlocksGo fuel (rest2.drop (k + 3))
            | none => extractBlocksGo fuel cs
        | _ => extractBlocksGo fuel cs
      else extractBlocksGo fuel cs

/-- All matches of the fenced-code regex in source order; a fence with no
terminator yields no match, leaving that text to the prose path. -/
def extractBlocks (l : List Char) : List RawBlock :=
  extractBlocksGo l.length l

/-- The per-block html template (Home.jsx lines 82-91), byte for byte. -/
def codeBlockHtml (lang codeId code : String) : String :=
  "\n            <div class=\"code-block\">\n              <div class=\"code-header\">\n                <span class=\"code-lang\">"
    ++ lang
    ++ "</span>\n                <button class=\"code-btn copy-btn\" data-code-id=\""
    ++ codeId
    ++ "\">Copy</button>\n                <button class=\"code-btn edit-btn\" data-code-id=\""
    ++ codeId
    ++ "\">Edit</button>\n              </div>\n              <pre><code class=\"language-"
    ++ lang
    ++ "\" id=\""
    ++ codeId
    ++ "\">"
    ++ code
    ++ "</code></pre>\n            </div>\n          "

/-- The forEach assembly loop (Home.jsx lines 95-107): prose slice before each
block is cleaned and kept when non-empty, blocks are rendered in match order,
and the prose after the last block is appended.  `idx` numbers the blocks so
the id source is consumed in match order, as Math.random is in the source.
The indexOf fallback is unreachable: every `original` occurs in `text` at or
after `lastIndex` by construction of the match list. -/
def assembleBlocks (supply : Nat → String) (text : List Char) :
    Nat → Nat → List RawBlock → String
  | _, _, [] => ""
  | idx, lastIndex, b :: rest =>
      let startIndex := (indexOfFrom text b.original lastIndex).getD lastIndex
      let beforeText :=
        jsTrim (cleanResponse (String.mk ((text.drop lastIndex).take (startIndex - lastIndex))))
      let lang := if b.label == "" then "text" else b.label
      let codeId := "code-" ++ supply idx
      let code := String.mk (trimList b.body)
      let html := codeBlockHtml lang codeId code
      let chunk := (if beforeText == "" then "" else beforeText ++ "<br><br>") ++ html
      let newLast := startIndex + b.original.length
      match rest with
      | [] =>
          let afterText := jsTrim (cleanResponse (String.mk (text.drop newLast)))
          chunk ++ (if afterText == "" then "" else "<br><br>" ++ afterText)
      | _ :: _ => chunk ++ assembleBlocks supply text (idx + 1) newLast rest

/-- formatResponse (Home.jsx lines 63-113).  `tz` is the environment timezone
offset in minutes, `supply` the source of the otherwise Math.random-derived
code-block ids, `isDateQuery` the accumulation-time hint. -/
def formatResponse (tz : Int) (supply : Nat → String) (isDateQuery : Bool)
    (text : String) : String :=
  let dateOut : Option String :=
    if isDateQuery then
      match findFirstDate text.toList with
      | some m => (jsDateParse m).map (jsFormatDMY tz)
      | none => none
    else none
  match dateOut with
  | some s => s
  | none =>
      match extractBlocks text.toList with
      | [] => cleanResponse text
      | blocks => assembleBlocks supply text.toList 0 0 blocks

/-- The per-chunk date hint (Home.jsx line 166):
payload.toLowerCase().includes("date") || payload.match(dateRegex). -/
def chunkDateHint (payload : String) : Bool :=
  (indexOfSub "date".toList (payload.toList.map asciiLower)).isSome
    || (findFirstDate payload.toList).isSome

/-! ### Data model (spec section 3, Home.jsx state) -/

/-- A chat message.  `isStreaming` is `none` where the source object carries
no such field (the greeting and user messages), mirroring the JavaScript
records. -/
structure Message where
  role : String
  content : String
  timestamp : String
  isStreaming : Option Bool
deriving DecidableEq

/-- A stored conversation (Home.jsx lines 354-359). -/
structure Conversation where
  id : String
  messages : List Message
  snippet : String
  timestamp : String
deriving DecidableEq

/-- An inbound wire envelope, already JSON-parsed.  The payloads the dispatch
code reads are strings. -/
structure Envelope where
  type : String
  payload : String
deriving DecidableEq

/-- Outbound envelopes produced by the handlers under study
(ws.send calls in handleSend / handleLoadConversation / handleNewConversation). -/
inductive OutEnvelope where
  | userMessage (payload : String) (model : String)
  | loadChat (conversationId : String)
  | startChat
deriving DecidableEq

/-! ### The stream accumulator and message dispatch (Home.jsx lines 116-209)

The session state closed over by connectWebSocket: the accumulation buffer,
the date hint, lastChunkTimeRef, the pending idle timer (`some t` means a
timeout armed to fire at absolute time `t`), and the React message list.
`flushes` records the finalized content of each completed displayResponse,
i.e. the sequence of setMessages finalizations — the observable used to state
exactly-once properties. -/
structure AccState where
  accumulatedResponse : String
  isDateQuery : Bool
  lastChunkTime : Option Nat
  timeoutArmed : Option Nat
  messages : List Message
  flushes : List String
deriving DecidableEq

/-- The setMessages updater inside displayResponse (Home.jsx lines 120-143):
replace the last message when it is assistant-roled, else append a fresh
assistant message. -/
def updateMessages (formatted nowIso : String) (prev : List Message) : List Message :=
  match prev.getLast? with
  | some lastMessage =>
      if lastMessage.role = "assistant" then
        prev.dropLast ++ [{ lastMessage with content := formatted, isStreaming := some false }]
      else prev ++ [⟨"assistant", formatted, nowIso, some false⟩]
  | none => prev ++ [⟨"assistant", formatted, nowIso, some false⟩]

/-- displayResponse (Home.jsx lines 116-149): a no-op on an empty buffer;
otherwise format the buffer, update the messages, record the flush, and clear
the buffer, the hint and lastChunkTime (the armed timeout is not touched
here, matching the source). -/
def displayResponse (tz : Int) (supply : Nat → String) (nowIso : String)
    (st : AccState) : AccState :=
  if st.accumulatedResponse = "" then st
  else
    let formatted := formatResponse tz supply st.isDateQuery st.accumulatedResponse
    { st with
      messages := updateMessages formatted nowIso st.messages,
      flushes := st.flushes ++ [formatted],
      accumulatedResponse := "",
      isDateQuery := false,
      lastChunkTime := none }

/-- The ai_chunk branch (Home.jsx lines 164-182): append the payload, extend
the hint, stamp lastChunkTime, and cancel-and-rearm the idle timeout for
1000 ms from now. -/
def onChunk (st : AccState) (payload : String) (now : Nat) : AccState :=
  { st with
    accumulatedResponse := st.accumulatedResponse ++ payload,
    isDateQuery := st.isDateQuery || chunkDateHint payload,
    lastChunkTime := some now,
    timeoutArmed := some (now + 1000) }

/-- The body of the armed setTimeout (Home.jsx lines 178-182): flush only if
lastChunkTime is set and at least 1000 ms have passed since it. -/
def timerCallback (tz : Int) (supply : Nat → String) (nowIso : String)
    (now : Nat) (st : AccState) : AccState :=
  match st.lastChunkTime with
  | some t => if 1000 ≤ now - t then displayResponse tz supply nowIso st else st
  | none => st

/-- Expiry of the idle timer: the callback runs only for the currently armed
timeout at its due time (an armed timeout that was cancelled by clearTimeout
is modelled by `timeoutArmed` having been overwritten, so it never fires). -/
def onTimerFire (tz : Int) (supply : Nat → String) (nowIso : String)
    (st : AccState) (now : Nat) : AccState :=
  if st.timeoutArmed = some now then
    timerCallback tz supply nowIso now { st with timeoutArmed := none }
  else st

/-- The stream_end branch (Home.jsx lines 195-203): clearTimeout, then an
immediate displayResponse. -/
def onStreamEnd (tz : Int) (supply : Nat → String) (nowIso : String)
    (st : AccState) : AccState :=
  displayResponse tz supply nowIso { st with timeoutArmed := none }

/-- ws.onmessage dispatch (Home.jsx lines 159-209) on an already-parsed
envelope: ai_chunk accumulates, error appends an assistant-attributed
message, model_connected only logs, stream_end force-flushes, and every
other type — including status and warning — falls through unhandled. -/
def onMessageEvent (tz : Int) (supply : Nat → String) (nowIso : String)
    (now : Nat) (env : Envelope) (st : AccState) : AccState :=
  if env.type == "ai_chunk" then onChunk st env.payload now
  else if env.type == "error" then
    { st with messages :=
        st.messages ++ [⟨"assistant", "Error: " ++ env.payload, nowIso, some false⟩] }
  else if env.type == "model_connected" then st
  else if env.type == "stream_end" then onStreamEnd tz supply nowIso st
  else st

/-- Folding a burst of chunks (payload, arrival time) through the ai_chunk
branch. -/
def runChunks (st : AccState) (chunks : List (String × Nat)) : AccState :=
  chunks.foldl (fun s pc => onChunk s pc.1 pc.2) st

def concatPayloads : List (String × Nat) → String
  | [] => ""
  | pc :: rest => pc.1 ++ concatPayloads rest

def anyHint : List (String × Nat) → Bool
  | [] => false
  | pc :: rest => chunkDateHint pc.1 || anyHint rest

/-! ### Reconnection (Home.jsx lines 37-40, 224-244) -/

def maxReconnectAttempts : Nat := 5
def reconnectInterval : Nat := 3000

def unreachableNotice : String :=
  "Unable to reconnect to the server. Please refresh the page."

/-- Connection-manager state: the retry counter, the log of scheduled
reconnection attempts (one entry per setTimeout(connectWebSocket, ...), the
entry being the delay used), and the terminal notices appended to the chat. -/
structure ConnCtx where
  reconnectAttempts : Nat
  scheduledDelays : List Nat
  notices : List String
deriving DecidableEq

/-- ws.onclose (Home.jsx lines 224-244).  The handler receives no information
about who initiated the close and branches on nothing but the retry counter;
`callerInitiated` is threaded through to state that fact.  Below the bound a
reconnection attempt is scheduled at the fixed interval; at the bound the
terminal notice is appended and nothing is scheduled. -/
def onCloseEvent (_callerInitiated : Bool) (st : ConnCtx) : ConnCtx :=
  if st.reconnectAttempts < maxReconnectAttempts then
    { st with
      reconnectAttempts := st.reconnectAttempts + 1,
      scheduledDelays := st.scheduledDelays ++ [reconnectInterval] }
  else
    { st with notices := st.notices ++ [unreachableNotice] }

/-- ws.onopen (Home.jsx lines 151-157) resets the retry counter. -/
def onOpenEvent (st : ConnCtx) : ConnCtx :=
  { st with reconnectAttempts := 0 }

def initConn : ConnCtx := ⟨0, [], []⟩

/-- The state after k consecutive close events with no intervening open. -/
def afterCloses : Nat → ConnCtx
  | 0 => initConn
  | k + 1 => onCloseEvent false (afterCloses k)

/-! ### Conversation store: handleSend and handleLoadConversation
(Home.jsx lines 329-382) -/

/-- The component state the send/load handlers read and write, together with
the durable archive (`storage`: the conversationHistory localStorage key) and
the log of outbound ws.send calls. -/
structure HomeState where
  messages : List Message
  input : String
  history : List Conversation
  currentConversationId : Option String
  isSidebarOpen : Bool
  sentLog : List OutEnvelope
  storage : List Conversation
deriving DecidableEq

/-- input.slice(0, 30) + (input.length > 30 ? "..." : "") -/
def mkSnippet (input : String) : String :=
  String.mk (input.toList.take 30) ++ (if 30 < input.length then "..." else "")

/-- handleSend (Home.jsx lines 329-365): guard on blank input or a missing
socket; append the user message and a placeholder streaming assistant
message; send user_message; merge the new message list into the history
(updating the current conversation, or synthesizing one with a fresh id) and
overwrite the durable archive with the result. -/
def handleSend (nowIso newId : String) (wsPresent : Bool) (st : HomeState) : HomeState :=
  if jsTrim st.input == "" || !wsPresent then st
  else
    let userMessage : Message := ⟨"user", st.input, nowIso, none⟩
    let assistantMessage : Message := ⟨"assistant", "", nowIso, some true⟩
    let newMessages := st.messages ++ [userMessage, assistantMessage]
    let updatedHistory :=
      match st.currentConversationId with
      | some cid =>
          st.history.map (fun conv =>
            if conv.id == cid then { conv with messages := newMessages } else conv)
      | none => st.history ++ [⟨newId, newMessages, mkSnippet st.input, nowIso⟩]
    { st with
      messages := newMessages,
      sentLog := st.sentLog ++ [OutEnvelope.userMessage st.input "openai"],
      input := "",
      currentConversationId :=
        match st.currentConversationId with
        | some cid => some cid
        | none => some newId,
      history := updatedHistory,
      storage := updatedHistory }

/-- handleLoadConversation (Home.jsx lines 367-382): when the id is found,
install its messages, set it active and notify the backend; in every case
close the sidebar.  An unknown id takes the silent branch. -/
def handleLoadConversation (wsPresent : Bool) (conversationId : String)
    (st : HomeState) : HomeState :=
  match st.history.find? (fun conv => conv.id == conversationId) with
  | some conversation =>
      { st with
        messages := conversation.messages,
        currentConversationId := some conversationId,
        sentLog := st.sentLog ++
          (if wsPresent then [OutEnvelope.loadChat conversationId] else []),
        isSidebarOpen := false }
  | none => { st with isSidebarOpen := false }

/-! ### Concrete fixtures for witnesses and counterexamples -/

def sampleGreeting : Message := ⟨"assistant", "Hi there! How can I help you today?", "t0", none⟩

def sendState : HomeState :=
  { messages := [sampleGreeting], input := "hello", history := [],
    currentConversationId := none, isSidebarOpen := false, sentLog := [], storage := [] }

def quietAccState : AccState := ⟨"", false, none, none, [sampleGreeting], []⟩

def storedConv : Conversation := ⟨"1", [⟨"user", "q", "t0", none⟩], "q", "t0"⟩

def loadState : HomeState :=
  { messages := [sampleGreeting], input := "", history := [storedConv],
    currentConversationId := none, isSidebarOpen := true, sentLog := [],
    storage := [storedConv] }

def supplyA : Nat → String := fun _ => "aaaaaaaaa"
def supplyB : Nat → String := fun _ => "bbbbbbbbb"
def supplySeq : Nat → String := fun k => "id" ++ toString k

def twoBlockInput : String :=
  "Intro.\n```python\nprint(1)\n```\nMiddle prose.\n```\nplain code\n```\nTail."

def earlierDateText : String := "May 1, 2020, okay. The date is 2024-05-03."

def oneBlockInput : String := "```\nx\n```"

/-! ### Theorems -/

/-- Closed form of the state after k consecutive closes. -/
theorem afterCloses_eq (k : Nat) :
    afterCloses k =
      ⟨min k 5, List.replicate (min k 5) reconnectInterval,
        List.replicate (k - 5) unreachableNotice⟩ := by
  induction k with
  | zero => rfl
  | succ k ih =>
      rw [afterCloses, ih, onCloseEvent]
      by_cases hk : k < 5
      · have h1 : min k 5 = k := by omega
        have h2 : min (k + 1) 5 = k + 1 := by omega
        have h3 : k - 5 = 0 := by omega
        have h4 : k + 1 - 5 = 0 := by omega
        simp only [h1, h3, h2, h4, maxReconnectAttempts]
        rw [if_pos hk]
        simp [List.replicate_succ']
      · have h1 : min k 5 = 5 := by omega
        have h2 : min (k + 1) 5 = 5 := by omega
        have h3 : k + 1 - 5 = (k - 5) + 1 := by omega
        simp only [h1, h2, h3, maxReconnectAttempts]
        rw [if_neg (by omega)]
        simp [List.replicate_succ']

/-- C4 counterexample: from a fresh connection context, a caller-initiated
close event still schedules a reconnection attempt (the onclose handler has
no initiator guard), so reconnection does not fire only for closures that
are not caller-initiated. -/
theorem c4_counterexample :
    onCloseEvent true initConn =
      ⟨1, [reconnectInterval], []⟩ ∧ reconnectInterval = 3000 := by
  exact ⟨rfl, rfl⟩

/-- C4 (amended): reconnection fires on every close event regardless of
initiator (the handler ignores who closed).  After k consecutive closes with
no intervening open, min(k,5) reconnection attempts have been scheduled, each
at the fixed 3000 ms interval; every close beyond the fifth appends the
terminal unreachable notice instead, and no further reconnection is ever
scheduled from that state. -/
theorem c4_amended (k : Nat) :
    (afterCloses k).scheduledDelays = List.replicate (min k 5) reconnectInterval ∧
    (afterCloses k).notices = List.replicate (k - 5) unreachableNotice ∧
    (afterCloses k).reconnectAttempts = min k 5 ∧
    (∀ b st, onCloseEvent b st = onCloseEvent true st) := by
  rw [afterCloses_eq]
  exact ⟨rfl, rfl, rfl, fun b st => rfl⟩

/-- C7 counterexample: a status envelope produces no user-visible message at
all — the dispatch leaves the session state (messages included) unchanged —
contradicting the claim that error, warning and status are each surfaced as
an informational message. -/
theorem c7_counterexample :
    onMessageEvent 0 supplyA "t1" 5 ⟨"status", "Processing"⟩ quietAccState
      = quietAccState ∧
    onMessageEvent 0 supplyA "t1" 5 ⟨"warning", "Careful"⟩ quietAccState
      = quietAccState := by
  exact ⟨rfl, rfl⟩

/-- C7 (amended): only error envelopes are surfaced — as an
assistant-attributed informational message, without touching the
accumulation buffer, the flush log or the pending timer; status and warning
envelopes are ignored entirely (no message, no accumulation, no state change,
and none of the three closes the connection or alters the stream state). -/
theorem c7_amended (tz : Int) (supply : Nat → String) (nowIso : String)
    (now : Nat) (p : String) (st : AccState) :
    onMessageEvent tz supply nowIso now ⟨"status", p⟩ st = st ∧
    onMessageEvent tz supply nowIso now ⟨"warning", p⟩ st = st ∧
    (onMessageEvent tz supply nowIso now ⟨"error", p⟩ st).messages
      = st.messages ++ [⟨"assistant", "Error: " ++ p, nowIso, some false⟩] ∧
    (onMessageEvent tz supply nowIso now ⟨"error", p⟩ st).accumulatedResponse
      = st.accumulatedResponse ∧
    (onMessageEvent tz supply nowIso now ⟨"error", p⟩ st).flushes = st.flushes ∧
    (onMessageEvent tz supply nowIso now ⟨"error", p⟩ st).timeoutArmed
      = st.timeoutArmed := by
  exact ⟨rfl, rfl, rfl, rfl, rfl, rfl⟩

/-- C8 counterexample: loading an id absent from the archive is a silent
no-op — the result differs from the pre-state only in the closed sidebar,
with no error report of any kind (messages, active pointer and outbound log
unchanged, nothing sent) — contradicting "fails with a NotFound error that
is reported to the caller". -/
theorem c8_counterexample :
    handleLoadConversation true "2" loadState = { loadState with isSidebarOpen := false } := by
  rfl

/-- C8 (amended): load(id) of an unknown id reports nothing and makes no
state change except closing the sidebar; load of a present id installs that
conversation's message sequence, sets it active, notifies the backend and
closes the sidebar. -/
theorem c8_amended (st : HomeState) (cid : String) :
    (st.history.find? (fun conv => conv.id == cid) = none →
      handleLoadConversation true cid st = { st with isSidebarOpen := false }) ∧
    (∀ conv, st.history.find? (fun c => c.id == cid) = some conv →
      handleLoadConversation true cid st =
        { st with
          messages := conv.messages,
          currentConversationId := some cid,
          sentLog := st.sentLog ++ [OutEnvelope.loadChat cid],
          isSidebarOpen := false }) := by
  constructor
  · intro h
    simp [handleLoadConversation, h]
  · intro conv h
    simp [handleLoadConversation, h]

/-- C8 amended witness: both branches at concrete states. -/
theorem c8_amended_witness :
    handleLoadConversation true "2" loadState = { loadState with isSidebarOpen := false } ∧
    handleLoadConversation true "1" loadState =
      { loadState with
        messages := storedConv.messages,
        currentConversationId := some "1",
        sentLog := [OutEnvelope.loadChat "1"],
        isSidebarOpen := false } :=
  ⟨(c8_amended loadState "2").1 (by decide),
   (c8_amended loadState "1").2 storedConv (by decide)⟩

/-- C1 counterexample: a send from a fresh conversation immediately persists
an archive whose conversation ends with the in-flight placeholder assistant
message carrying isStreaming = true (and empty content), contradicting the
invariant that in-flight streaming state is never persisted and that the
archive reflects only completed sends. -/
theorem c1_counterexample :
    ((handleSend "t1" "1000" true sendState).storage.map
        (fun conv => conv.messages.map Message.isStreaming))
      = [[none, none, some true]] ∧
    ((handleSend "t1" "1000" true sendState).storage.map
        (fun conv => conv.messages.map Message.content))
      = [[sampleGreeting.content, "hello", ""]] := by
  exact ⟨by decide, by decide⟩

/-- C1 (amended): each send overwrites the archive with the message list as
of that send, which ends with the just-appended placeholder assistant
message (isStreaming = true, empty content); a flush never writes the
archive, so finalized assistant content only reaches it at the next send. -/
theorem c1_amended (st : HomeState) (nowIso newId : String)
    (h : jsTrim st.input ≠ "") :
    (st.currentConversationId = none →
      (handleSend nowIso newId true st).storage =
        st.history ++
          [⟨newId,
            st.messages ++
              [⟨"user", st.input, nowIso, none⟩, ⟨"assistant", "", nowIso, some true⟩],
            mkSnippet st.input, nowIso⟩]) ∧
    (∀ cid, st.currentConversationId = some cid →
      (handleSend nowIso newId true st).storage =
        st.history.map (fun conv =>
          if conv.id == cid then
            { conv with messages :=
                st.messages ++
                  [⟨"user", st.input, nowIso, none⟩,
                   ⟨"assistant", "", nowIso, some true⟩] }
          else conv)) := by
  have hb : (jsTrim st.input == "") = false := beq_eq_false_iff_ne.mpr h
  constructor
  · intro hc
    simp [handleSend, hb, hc]
  · intro cid hc
    simp [handleSend, hb, hc]

/-- C1 amended witness: the new-conversation branch at a concrete state. -/
theorem c1_amended_witness :
    (handleSend "t1" "1000" true sendState).storage =
      [⟨"1000",
        [sampleGreeting, ⟨"user", "hello", "t1", none⟩, ⟨"assistant", "", "t1", some true⟩],
        "hello", "t1"⟩] :=
  (c1_amended sendState "t1" "1000" (by decide)).1 rfl

set_option maxRecDepth 40000 in
/-- C5 counterexample: two runs of the transformer on the same input with
different draws from the random id source produce different output — the
per-block identifier is freshly random, not stable across runs — so the
transformer is not deterministic in the claimed sense. -/
theorem c5_counterexample :
    formatResponse 0 supplyA false oneBlockInput
      ≠ formatResponse 0 supplyB false oneBlockInput := by
  decide

/-- C5 (amended): the transformer is deterministic given its text, the
date hint, the timezone and the id source, and it consults the random id
source only to name extracted code blocks: on any input with no fenced code
block the output is independent of that source. -/
theorem c5_amended (tz : Int) (s1 s2 : Nat → String) (hint : Bool) (text : String)
    (h : extractBlocks text.toList = []) :
    formatResponse tz s1 hint text = formatResponse tz s2 hint text := by
  simp only [formatResponse, h]

/-- C5 amended witness: a block-free input evaluates identically under two
different id sources. -/
theorem c5_amended_witness :
    extractBlocks ("hello".toList) = [] ∧
    formatResponse 0 supplyA false "hello" = formatResponse 0 supplyB false "hello" :=
  ⟨by decide, c5_amended 0 supplyA supplyB false "hello" (by decide)⟩

/-- C6 counterexample: the accumulated text contains "The date is
2024-05-03." and the hint is set, yet the transformer renders 01/05/2020 —
the date regex takes the leftmost date-like match ("May 1, 2020" here), not
the ISO date the claim names — so the output is not "Today's date is
03/05/2024". -/
theorem c6_counterexample :
    (indexOfSub "The date is 2024-05-03.".toList earlierDateText.toList).isSome = true ∧
    formatResponse 0 supplyA true earlierDateText = "Today\x27s date is 01/05/2020" := by
  exact ⟨by decide, by decide⟩

/-- C6 (amended): if the hint was set and the leftmost date-like match in
the accumulated text is exactly "2024-05-03" (in particular for the bare
text "The date is 2024-05-03."), and the runtime timezone is not behind UTC
(ISO dates are parsed as UTC midnight yet rendered by local getters), then
the output is exactly "Today's date is 03/05/2024" — the date branch
returns immediately, bypassing every later pipeline stage. -/
theorem c6_amended (tz : Int) (supply : Nat → String) (text : String)
    (hfind : findFirstDate text.toList = some ("2024-05-03".toList))
    (htz : 0 ≤ tz) :
    formatResponse tz supply true text = "Today\x27s date is 03/05/2024" := by
  have hparse : jsDateParse ("2024-05-03".toList) = some ⟨2024, 5, 3, true⟩ := by decide
  have hloc : localYMD tz ⟨2024, 5, 3, true⟩ = (2024, 5, 3) := by
    simp only [localYMD]
    rw [if_neg]
    rintro ⟨-, hlt⟩
    omega
  have hfmt : jsFormatDMY tz ⟨2024, 5, 3, true⟩ = "Today\x27s date is 03/05/2024" := by
    simp only [jsFormatDMY, hloc]
    decide
  simp only [formatResponse, hfind, hparse, Option.map_some', hfmt]
  rfl

/-- C6 amended witness: the bare date sentence in a UTC environment. -/
theorem c6_amended_witness :
    formatResponse 0 supplyA true "The date is 2024-05-03."
      = "Today\x27s date is 03/05/2024" :=
  c6_amended 0 supplyA "The date is 2024-05-03." (by decide) (by decide)

/-- Closed form of a burst of chunk events: the buffer accumulates the
payload concatenation in arrival order, the hint is the disjunction of the
per-chunk hints, the last-activity stamp and the armed timeout follow the
last chunk, and neither the message list nor the flush log is touched. -/
theorem runChunks_eq (chunks : List (String × Nat)) (pc : String × Nat) (init : AccState) :
    runChunks init (pc :: chunks) =
      ⟨init.accumulatedResponse ++ concatPayloads (pc :: chunks),
       init.isDateQuery || anyHint (pc :: chunks),
       some ((chunks.getLastD pc).2),
       some ((chunks.getLastD pc).2 + 1000),
       init.messages, init.flushes⟩ := by
  induction chunks generalizing pc init with
  | nil =>
      obtain ⟨a, q, lc, ta, ms, fl⟩ := init
      simp [runChunks, onChunk, concatPayloads, anyHint, String.append_empty]
  | cons pc2 rest ih =>
      have hstep : runChunks init (pc :: pc2 :: rest)
          = runChunks (onChunk init pc.1 pc.2) (pc2 :: rest) := rfl
      rw [hstep, ih]
      obtain ⟨a, q, lc, ta, ms, fl⟩ := init
      simp [onChunk, concatPayloads, anyHint, String.append_assoc, Bool.or_assoc,
        List.getLastD_cons, List.getLast?_cons, List.getLastD_eq_getLast?]

/-- The last message produced by the displayResponse updater always carries
the formatted content, frozen. -/
theorem updateMessages_last (f ts : String) (prev : List Message) (d : Message) :
    ((updateMessages f ts prev).getLastD d).content = f ∧
    ((updateMessages f ts prev).getLastD d).isStreaming = some false := by
  rw [updateMessages]
  cases h : prev.getLast? with
  | none => simp [List.getLastD_concat]
  | some lastMessage =>
      by_cases hr : lastMessage.role = "assistant" <;>
        simp [hr, List.getLastD_concat]

/-- C2: fragments delivered within the idle threshold of each other (so no
timer expires between them: each arrival cancels and re-arms the timeout,
modelled by the single armed slot being overwritten) accumulate by
concatenation in arrival order, and the idle-timer expiry 1000 ms after the
last fragment finalizes exactly one message whose content is the transformer
applied to the concatenation, under the accumulated date hint.  The flush
log shows that content produced exactly once, and the buffer is left empty. -/
theorem c2_idle_flush (tz : Int) (supply : Nat → String) (nowIso : String)
    (init : AccState) (pc : String × Nat) (chunks : List (String × Nat))
    (hacc : init.accumulatedResponse = "") (hfl : init.flushes = [])
    (hq : init.isDateQuery = false)
    (hne : concatPayloads (pc :: chunks) ≠ "") :
    (onTimerFire tz supply nowIso (runChunks init (pc :: chunks))
        ((chunks.getLastD pc).2 + 1000)).flushes
      = [formatResponse tz supply (anyHint (pc :: chunks)) (concatPayloads (pc :: chunks))] ∧
    ((onTimerFire tz supply nowIso (runChunks init (pc :: chunks))
        ((chunks.getLastD pc).2 + 1000)).messages.getLastD ⟨"", "", "", none⟩).content
      = formatResponse tz supply (anyHint (pc :: chunks)) (concatPayloads (pc :: chunks)) ∧
    (onTimerFire tz supply nowIso (runChunks init (pc :: chunks))
        ((chunks.getLastD pc).2 + 1000)).accumulatedResponse = "" := by
  rw [runChunks_eq, hacc, hfl, hq, String.empty_append, Bool.false_or]
  rw [onTimerFire, if_pos rfl, timerCallback]
  simp only
  rw [if_pos (by omega : 1000 ≤ (chunks.getLastD pc).2 + 1000 - (chunks.getLastD pc).2)]
  rw [displayResponse]
  simp only
  rw [if_neg hne]
  refine ⟨rfl, ?_, rfl⟩
  exact (updateMessages_last _ nowIso init.messages _).1

/-- C2 witness: a two-fragment burst ("hello" at 0 ms, " world" at 400 ms)
finalized by the timer expiring 1000 ms after the second fragment. -/
theorem c2_idle_flush_witness :
    (onTimerFire 0 supplyA "t1"
        (runChunks quietAccState [("hello", 0), (" world", 400)])
        (([(" world", 400)].getLastD ("hello", 0)).2 + 1000)).flushes
      = [formatResponse 0 supplyA (anyHint [("hello", 0), (" world", 400)])
          (concatPayloads [("hello", 0), (" world", 400)])] ∧
    ((onTimerFire 0 supplyA "t1"
        (runChunks quietAccState [("hello", 0), (" world", 400)])
        (([(" world", 400)].getLastD ("hello", 0)).2 + 1000)).messages.getLastD
          ⟨"", "", "", none⟩).content
      = formatResponse 0 supplyA (anyHint [("hello", 0), (" world", 400)])
          (concatPayloads [("hello", 0), (" world", 400)]) ∧
    (onTimerFire 0 supplyA "t1"
        (runChunks quietAccState [("hello", 0), (" world", 400)])
        (([(" world", 400)].getLastD ("hello", 0)).2 + 1000)).accumulatedResponse = "" :=
  c2_idle_flush 0 supplyA "t1" quietAccState ("hello", 0) [(" world", 400)]
    rfl rfl rfl (by decide)

/-- C3: the flush discipline.  On a non-empty buffer, an explicit stream_end
cancels the armed idle timer and flushes immediately and exactly once
(exactly one entry is appended to the flush log), clearing the buffer
atomically with the flush; afterwards no timer expiry can fire again (the
armed slot is empty), so the same buffer is never flushed twice.  A flush
against an empty buffer is a complete no-op: no message is emitted and the
state — the message list included — is unchanged. -/
theorem c3_flush_once (tz : Int) (supply : Nat → String) (nowIso : String)
    (st : AccState) :
    (st.accumulatedResponse ≠ "" →
      (onStreamEnd tz supply nowIso st).timeoutArmed = none ∧
      (onStreamEnd tz supply nowIso st).flushes
        = st.flushes ++ [formatResponse tz supply st.isDateQuery st.accumulatedResponse] ∧
      (onStreamEnd tz supply nowIso st).accumulatedResponse = "" ∧
      (∀ t, onTimerFire tz supply nowIso (onStreamEnd tz supply nowIso st) t
              = onStreamEnd tz supply nowIso st)) ∧
    (st.accumulatedResponse = "" →
      displayResponse tz supply nowIso st = st ∧
      (onStreamEnd tz supply nowIso st).messages = st.messages ∧
      (onStreamEnd tz supply nowIso st).flushes = st.flushes) := by
  obtain ⟨a, q, lc, ta, ms, fl⟩ := st
  constructor
  · intro hne
    refine ⟨?_, ?_, ?_, ?_⟩
    · simp [onStreamEnd, displayResponse, hne]
    · simp [onStreamEnd, displayResponse, hne]
    · simp [onStreamEnd, displayResponse, hne]
    · intro t
      simp [onStreamEnd, displayResponse, hne, onTimerFire]
  · intro h0
    subst h0
    refine ⟨?_, ?_, ?_⟩ <;> simp [onStreamEnd, displayResponse]

/-- C3 witness: the non-empty branch on a buffered state with an armed
timer, and the empty branch on the quiet state. -/
theorem c3_flush_once_witness :
    ((onStreamEnd 0 supplyA "t1" ⟨"hi", false, some 0, some 1000, [sampleGreeting], []⟩).timeoutArmed = none ∧
     (onStreamEnd 0 supplyA "t1" ⟨"hi", false, some 0, some 1000, [sampleGreeting], []⟩).flushes
       = [] ++ [formatResponse 0 supplyA false "hi"] ∧
     (onStreamEnd 0 supplyA "t1" ⟨"hi", false, some 0, some 1000, [sampleGreeting], []⟩).accumulatedResponse = "" ∧
     (∀ t, onTimerFire 0 supplyA "t1"
             (onStreamEnd 0 supplyA "t1" ⟨"hi", false, some 0, some 1000, [sampleGreeting], []⟩) t
           = onStreamEnd 0 supplyA "t1" ⟨"hi", false, some 0, some 1000, [sampleGreeting], []⟩)) ∧
    (displayResponse 0 supplyA "t1" quietAccState = quietAccState ∧
     (onStreamEnd 0 supplyA "t1" quietAccState).messages = quietAccState.messages ∧
     (onStreamEnd 0 supplyA "t1" quietAccState).flushes = quietAccState.flushes) :=
  ⟨(c3_flush_once 0 supplyA "t1" ⟨"hi", false, some 0, some 1000, [sampleGreeting], []⟩).1
      (by decide),
   (c3_flush_once 0 supplyA "t1" quietAccState).2 rfl⟩

/-- C10: the frame effect of a flush with a non-empty buffer.  When the last
message is assistant-roled it alone is replaced — content set to the
transformed text, isStreaming set to false — with every earlier message and
the length unchanged; this holds whatever the last assistant message was
(streaming placeholder, finalized reply, or surfaced error).  Otherwise a
fresh assistant message is appended and all existing messages are kept. -/
theorem c10_flush_frame (tz : Int) (supply : Nat → String) (nowIso : String)
    (st : AccState) (hne : st.accumulatedResponse ≠ "") :
    (∀ pre lastMessage, st.messages = pre ++ [lastMessage] →
        lastMessage.role = "assistant" →
      (displayResponse tz supply nowIso st).messages =
        pre ++ [{ lastMessage with
                  content := formatResponse tz supply st.isDateQuery st.accumulatedResponse,
                  isStreaming := some false }]) ∧
    (∀ pre lastMessage, st.messages = pre ++ [lastMessage] →
        ¬ lastMessage.role = "assistant" →
      (displayResponse tz supply nowIso st).messages =
        st.messages ++
          [⟨"assistant", formatResponse tz supply st.isDateQuery st.accumulatedResponse,
            nowIso, some false⟩]) ∧
    (st.messages = [] →
      (displayResponse tz supply nowIso st).messages =
        [⟨"assistant", formatResponse tz supply st.isDateQuery st.accumulatedResponse,
          nowIso, some false⟩]) := by
  obtain ⟨a, q, lc, ta, ms, fl⟩ := st
  simp only at hne
  refine ⟨?_, ?_, ?_⟩
  · intro pre lastMessage hprev hrole
    simp only at hprev
    subst hprev
    simp [displayResponse, hne, updateMessages, List.getLast?_concat, hrole,
      List.dropLast_concat]
  · intro pre lastMessage hprev hrole
    simp only at hprev
    subst hprev
    simp [displayResponse, hne, updateMessages, List.getLast?_concat, hrole,
      List.dropLast_concat]
  · intro hprev
    simp only at hprev
    subst hprev
    simp [displayResponse, hne, updateMessages]

/-- C10 witness: replacing a trailing assistant message at a concrete state. -/
theorem c10_flush_frame_witness :
    (displayResponse 0 supplyA "t1" ⟨"x", false, some 0, none, [sampleGreeting], []⟩).messages
      = [] ++ [{ sampleGreeting with
                 content := formatResponse 0 supplyA false "x",
                 isStreaming := some false }] :=
  (c10_flush_frame 0 supplyA "t1" ⟨"x", false, some 0, none, [sampleGreeting], []⟩
      (by decide)).1 [] sampleGreeting rfl rfl

set_option maxRecDepth 100000 in
/-- C9: on an input holding a "python"-labelled fenced block and an
unlabelled one, the transformer emits two structured blocks with detected
languages "python" and "text", each rendered through the block template —
which exposes the Copy and Edit actions — and the cleaned surrounding prose
("Intro.", "Middle prose.", "Tail.") interleaved in the original source
order. -/
theorem c9_two_blocks :
    ((extractBlocks twoBlockInput.toList).map
        (fun b => if b.label == "" then "text" else b.label)) = ["python", "text"] ∧
    formatResponse 0 supplySeq false twoBlockInput
      = "Intro.<br><br>"
          ++ codeBlockHtml "python" "code-id0" "print(1)"
          ++ "Middle prose.<br><br>"
          ++ codeBlockHtml "text" "code-id1" "plain code"
          ++ "<br><br>Tail." := by
  exact ⟨by decide, by decide⟩

end Joi
